import Mathlib

/-!
Verification of the one-time-token-session plugin (index.ts, utils.ts).

The development embeds the plugin's two endpoint handlers,
generateOneTimeTokenSession and verifyOneTimeTokenSession, as pure
functions over an explicit store state, together with the storage
transform (plain / hashed / custom) and the SHA-256 based
defaultKeyHasher from utils.ts.  Machine words are modelled as Nat
with explicit reduction mod 2^32.
-/

namespace OneTimeTokenSession

/-! ### SHA-256 over byte lists (embedding of createHash("sha256") used by utils.ts) -/

/-- Mask to 32 bits. -/
def mask32 (x : Nat) : Nat := x % 4294967296

/-- 32-bit rotate right. -/
def rotr (n x : Nat) : Nat := mask32 ((x >>> n) ||| (x <<< (32 - n)))

/-- 32-bit bitwise complement. -/
def not32 (x : Nat) : Nat := 4294967295 ^^^ x

def smallSigma0 (x : Nat) : Nat := (rotr 7 x) ^^^ (rotr 18 x) ^^^ (x >>> 3)

def smallSigma1 (x : Nat) : Nat := (rotr 17 x) ^^^ (rotr 19 x) ^^^ (x >>> 10)

def bigSigma0 (x : Nat) : Nat := (rotr 2 x) ^^^ (rotr 13 x) ^^^ (rotr 22 x)

def bigSigma1 (x : Nat) : Nat := (rotr 6 x) ^^^ (rotr 11 x) ^^^ (rotr 25 x)

def chFn (e f g : Nat) : Nat := (e &&& f) ^^^ ((not32 e) &&& g)

def majFn (a b c : Nat) : Nat := (a &&& b) ^^^ (a &&& c) ^^^ (b &&& c)

/-- The 64 SHA-256 round constants of FIPS 180-4 (here in decimal; the first
is 0x428a2f98, the last 0xc67178f2). -/
def sha256K : List Nat :=
  [1116352408, 1899447441, 3049323471, 3921009573, 961987163, 1508970993,
   2453635748, 2870763221, 3624381080, 310598401, 607225278, 1426881987,
   1925078388, 2162078206, 2614888103, 3248222580, 3835390401, 4022224774,
   264347078, 604807628, 770255983, 1249150122, 1555081692, 1996064986,
   2554220882, 2821834349, 2952996808, 3210313671, 3336571891, 3584528711,
   113926993, 338241895, 666307205, 773529912, 1294757372, 1396182291,
   1695183700, 1986661051, 2177026350, 2456956037, 2730485921, 2820302411,
   3259730800, 3345764771, 3516065817, 3600352804, 4094571909, 275423344,
   430227734, 506948616, 659060556, 883997877, 958139571, 1322822218,
   1537002063, 1747873779, 1955562222, 2024104815, 2227730452, 2361852424,
   2428436474, 2756734187, 3204031479, 3329325298]

/-- The SHA-256 initial hash state of FIPS 180-4 (in decimal; the first word
is 0x6a09e667, the last 0x5be0cd19). -/
def sha256H0 : List Nat :=
  [1779033703, 3144134277, 1013904242, 2773480762,
   1359893119, 2600822924, 528734635, 1541459225]

/-- Group a byte list into big-endian 32-bit words (4 bytes per word). -/
def toWords : List Nat → List Nat
  | b0 :: b1 :: b2 :: b3 :: rest =>
      (((((b0 <<< 8) ||| b1) <<< 8) ||| b2) <<< 8 ||| b3) :: toWords rest
  | _ => []

/-- Extend 16 message words to the 64-word message schedule. -/
def extendWords (w16 : List Nat) : List Nat :=
  (List.range 48).foldl
    (fun w i =>
      let t := mask32 (smallSigma1 (w.getD (i + 14) 0) + w.getD (i + 9) 0 +
                       smallSigma0 (w.getD (i + 1) 0) + w.getD i 0)
      w ++ [t])
    w16

/-- Working state of the compression function. -/
structure ShaState where
  a : Nat
  b : Nat
  c : Nat
  d : Nat
  e : Nat
  f : Nat
  g : Nat
  h : Nat

def shaRound (s : ShaState) (kw : Nat × Nat) : ShaState :=
  let t1 := mask32 (s.h + bigSigma1 s.e + chFn s.e s.f s.g + kw.1 + kw.2)
  let t2 := mask32 (bigSigma0 s.a + majFn s.a s.b s.c)
  { a := mask32 (t1 + t2), b := s.a, c := s.b, d := s.c,
    e := mask32 (s.d + t1), f := s.e, g := s.f, h := s.g }

/-- Compress one 64-byte block into the running hash value. -/
def compressBlock (hv : List Nat) (block : List Nat) : List Nat :=
  let w := extendWords (toWords block)
  let s0 : ShaState :=
    { a := hv.getD 0 0, b := hv.getD 1 0, c := hv.getD 2 0, d := hv.getD 3 0,
      e := hv.getD 4 0, f := hv.getD 5 0, g := hv.getD 6 0, h := hv.getD 7 0 }
  let s := (sha256K.zip w).foldl shaRound s0
  [mask32 (hv.getD 0 0 + s.a), mask32 (hv.getD 1 0 + s.b),
   mask32 (hv.getD 2 0 + s.c), mask32 (hv.getD 3 0 + s.d),
   mask32 (hv.getD 4 0 + s.e), mask32 (hv.getD 5 0 + s.f),
   mask32 (hv.getD 6 0 + s.g), mask32 (hv.getD 7 0 + s.h)]

/-- SHA-256 padding: append 0x80, zeros, and the 64-bit big-endian bit length. -/
def padMessage (msg : List Nat) : List Nat :=
  let len := msg.length
  let bitLen := len * 8
  let zeros := (120 - ((len + 1) % 64)) % 64
  msg ++ [0x80] ++ List.replicate zeros 0 ++
    [mask32 (bitLen >>> 56) % 256, (bitLen >>> 48) % 256, (bitLen >>> 40) % 256,
     (bitLen >>> 32) % 256, (bitLen >>> 24) % 256, (bitLen >>> 16) % 256,
     (bitLen >>> 8) % 256, bitLen % 256]

/-- Process the padded message 64 bytes at a time; n is the block count. -/
def processBlocks : Nat → List Nat → List Nat → List Nat
  | 0, hv, _ => hv
  | n + 1, hv, bytes => processBlocks n (compressBlock hv (bytes.take 64)) (bytes.drop 64)

/-- Serialize a 32-bit word to big-endian bytes. -/
def wordToBytes (w : Nat) : List Nat :=
  [(w >>> 24) % 256, (w >>> 16) % 256, (w >>> 8) % 256, w % 256]

/-- SHA-256 digest of a byte list, as 32 bytes. -/
def sha256Bytes (msg : List Nat) : List Nat :=
  let padded := padMessage msg
  let hv := processBlocks (padded.length / 64) sha256H0 padded
  (hv.map wordToBytes).flatten

/-! ### UTF-8 and base64url (no padding), as used by Buffer.toString("base64url") -/

/-- UTF-8 encoding of one Unicode scalar value. -/
def utf8EncodeChar (c : Char) : List Nat :=
  let n := c.toNat
  if n < 0x80 then [n]
  else if n < 0x800 then
    [0xC0 ||| (n >>> 6), 0x80 ||| (n &&& 0x3F)]
  else if n < 0x10000 then
    [0xE0 ||| (n >>> 12), 0x80 ||| ((n >>> 6) &&& 0x3F), 0x80 ||| (n &&& 0x3F)]
  else
    [0xF0 ||| (n >>> 18), 0x80 ||| ((n >>> 12) &&& 0x3F),
     0x80 ||| ((n >>> 6) &&& 0x3F), 0x80 ||| (n &&& 0x3F)]

/-- UTF-8 encoding of a string as a byte list. -/
def utf8Encode (s : String) : List Nat := (s.data.map utf8EncodeChar).flatten

/-- The base64url alphabet. -/
def base64urlAlphabet : List Char :=
  "ABCDEFGHIJKLMNOPQRSTUVWXYZabcdefghijklmnopqrstuvwxyz0123456789-_".data

def b64Char (n : Nat) : Char := base64urlAlphabet.getD n 'A'

/-- base64url encoding without padding. -/
def base64urlNoPad : List Nat → List Char
  | b0 :: b1 :: b2 :: rest =>
      b64Char (b0 >>> 2) ::
      b64Char (((b0 &&& 3) <<< 4) ||| (b1 >>> 4)) ::
      b64Char (((b1 &&& 15) <<< 2) ||| (b2 >>> 6)) ::
      b64Char (b2 &&& 63) :: base64urlNoPad rest
  | [b0, b1] =>
      [b64Char (b0 >>> 2), b64Char (((b0 &&& 3) <<< 4) ||| (b1 >>> 4)),
       b64Char ((b1 &&& 15) <<< 2)]
  | [b0] => [b64Char (b0 >>> 2), b64Char ((b0 &&& 3) <<< 4)]
  | [] => []

/-- Embedding of defaultKeyHasher (src/utils.ts): base64url(SHA-256(utf8 token)),
no padding. -/
def defaultKeyHasher (token : String) : String :=
  String.mk (base64urlNoPad (sha256Bytes (utf8Encode token)))

/-! ### Data model: verification records, sessions, users, store state -/

/-- An APIError thrown by c.error(status, body): an HTTP status class plus a
message, e.g. BAD_REQUEST with message "Invalid token". -/
structure ApiError where
  status : String
  message : String
deriving DecidableEq

/-- BAD_REQUEST raised by the zod body schema z.string().min(1, "Token is required"). -/
def tokenRequiredError : ApiError := ⟨"BAD_REQUEST", "Token is required"⟩

/-- BAD_REQUEST "Invalid token": no verification record found. -/
def invalidTokenError : ApiError := ⟨"BAD_REQUEST", "Invalid token"⟩

/-- BAD_REQUEST "Token expired": record found but past expiry. -/
def tokenExpiredError : ApiError := ⟨"BAD_REQUEST", "Token expired"⟩

/-- BAD_REQUEST "Session not found": record found, bound session vanished. -/
def sessionNotFoundError : ApiError := ⟨"BAD_REQUEST", "Session not found"⟩

/-- BAD_REQUEST "Client requests are disabled": generate invoked from a
network request while disableClientRequest is set. -/
def clientRequestsDisabledError : ApiError := ⟨"BAD_REQUEST", "Client requests are disabled"⟩

/-- A row of the verification table: createVerificationValue persists
identifier, value and expiresAt, the store assigns an id used for deletion.
Timestamps are milliseconds since epoch. -/
structure VerificationRecord where
  id : Nat
  identifier : String
  value : String
  expiresAt : Nat
deriving DecidableEq

/-- A session record: the durable token and the owning user id
(session.token, session.userId in better-auth). -/
structure Session where
  token : String
  userId : String
deriving DecidableEq

/-- A user record; opaque to this subsystem except for its id. -/
structure User where
  id : String
deriving DecidableEq

/-- The session-plus-user pair returned by findSession and carried by
the session middleware (c.context.session). -/
structure SessionPair where
  session : Session
  user : User
deriving DecidableEq

/-- The durable state visible to the plugin through
c.context.internalAdapter, plus the response cookie set by
setSessionCookie.  nextVerificationId / nextSessionId model the
store-assigned identities. -/
structure Store where
  verifications : List VerificationRecord
  nextVerificationId : Nat
  sessions : List Session
  users : List User
  nextSessionId : Nat
  cookie : Option SessionPair
deriving DecidableEq

/-! ### internalAdapter operations (external collaborators of the plugin) -/

/-- internalAdapter.findVerificationValue: look a record up by identifier. -/
def findVerificationValue (st : Store) (identifier : String) : Option VerificationRecord :=
  st.verifications.find? (fun r => r.identifier = identifier)

/-- internalAdapter.deleteVerificationValue: delete the record with the given
store id; a no-op when the record is already gone. -/
def deleteVerificationValue (st : Store) (vid : Nat) : Store :=
  { st with verifications := st.verifications.filter (fun r => r.id ≠ vid) }

/-- internalAdapter.createVerificationValue: persist a new record, the store
assigning a fresh id. -/
def createVerificationValue (st : Store) (value identifier : String) (expiresAt : Nat) : Store :=
  { st with
    verifications :=
      st.verifications ++ [⟨st.nextVerificationId, identifier, value, expiresAt⟩]
    nextVerificationId := st.nextVerificationId + 1 }

/-- internalAdapter.findSession: resolve a durable session token to the
session record and its user. -/
def findSession (st : Store) (sessionToken : String) : Option SessionPair :=
  match st.sessions.find? (fun s => s.token = sessionToken) with
  | none => none
  | some s =>
    match st.users.find? (fun u => u.id = s.userId) with
    | none => none
    | some u => some ⟨s, u⟩

/-- internalAdapter.createSession: create a session for a user with a fresh
durable token (the real store draws a random token; the model derives it from
the store counter, which the plugin treats as opaque). -/
def createSession (st : Store) (userId : String) : Session × Store :=
  let s : Session := ⟨"session-token-" ++ toString st.nextSessionId, userId⟩
  (s, { st with sessions := st.sessions ++ [s], nextSessionId := st.nextSessionId + 1 })

/-- setSessionCookie (better-auth/cookies): establish the new session as the
caller's active session on the response. -/
def setSessionCookie (st : Store) (sp : SessionPair) : Store :=
  { st with cookie := some sp }

/-! ### Plugin options (OneTimeTokenSessionOptions with its defaults) -/

/-- storeToken option: "plain" | "hashed" | custom-hasher. -/
inductive StoreTokenOption where
  | plain
  | hashed
  | customHasher (hash : String → String)

/-- OneTimeTokenSessionOptions after the defaults merge in oneTimeTokenSession:
storeToken "plain", createSession true, expiresIn 3 (minutes). -/
structure Options where
  expiresIn : Nat := 3
  disableClientRequest : Bool := false
  generateToken : Option (SessionPair → String) := none
  storeToken : StoreTokenOption := .plain
  createSession : Bool := true

/-- The storeToken helper: apply the configured storage transform to the
logical token ("hashed" uses defaultKeyHasher, custom the supplied hash,
otherwise the token itself). -/
def storeToken (opts : Options) (token : String) : String :=
  match opts.storeToken with
  | .hashed => defaultKeyHasher token
  | .customHasher hash => hash token
  | .plain => token

/-! ### The two endpoint handlers -/

/-- Result body of the generate endpoint. -/
structure GenerateResult where
  token : String
deriving DecidableEq

/-- Result body of the verify endpoint. -/
structure VerifyResult where
  session : Session
  user : User
  token : Option String
deriving DecidableEq

/-- generateOneTimeTokenSession handler.  hasRequest models c.request being
present (a network-originated call); session is the authenticated session
resolved by sessionMiddleware; randomToken models the output of
generateRandomString(32), used when no generateToken option is given.
Returns the response (or error) together with the post state. -/
def generateOneTimeTokenSession (opts : Options) (now : Nat) (hasRequest : Bool)
    (session : SessionPair) (randomToken : String) (st : Store) :
    Except ApiError GenerateResult × Store :=
  if opts.disableClientRequest && hasRequest then
    (.error clientRequestsDisabledError, st)
  else
    let token :=
      match opts.generateToken with
      | some g => g session
      | none => randomToken
    let expiresAt := now + opts.expiresIn * 60 * 1000
    let storedToken := storeToken opts token
    let st1 := createVerificationValue st session.session.token
      ("one-time-token:" ++ storedToken) expiresAt
    (.ok ⟨token⟩, st1)

/-- verifyOneTimeTokenSession handler.  The body schema
z.object({ token: z.string().min(1, "Token is required") }) rejects the
empty token before the handler body runs; then the handler recomputes the
stored token, looks the record up, enforces expiry (strict comparison
expiresAt < now), deletes the record before resolving the session, and
optionally creates a successor session. -/
def verifyOneTimeTokenSession (opts : Options) (now : Nat) (token : String) (st : Store) :
    Except ApiError VerifyResult × Store :=
  if token.length < 1 then
    (.error tokenRequiredError, st)
  else
    let storedToken := storeToken opts token
    match findVerificationValue st ("one-time-token:" ++ storedToken) with
    | none => (.error invalidTokenError, st)
    | some verificationValue =>
      if verificationValue.expiresAt < now then
        (.error tokenExpiredError, deleteVerificationValue st verificationValue.id)
      else
        let st1 := deleteVerificationValue st verificationValue.id
        match findSession st1 verificationValue.value with
        | none => (.error sessionNotFoundError, st1)
        | some session =>
          if opts.createSession then
            let cs := createSession st1 session.session.userId
            let newSession := cs.fst
            let st2 := setSessionCookie cs.snd ⟨newSession, session.user⟩
            (.ok ⟨newSession, session.user, some newSession.token⟩, st2)
          else
            (.ok ⟨session.session, session.user, none⟩, st1)

/-- Whether a verify outcome is a success response. -/
def isOkResult : Except ApiError VerifyResult → Bool
  | .ok _ => true
  | .error _ => false

/-! ### Interleaving semantics for concurrent verify calls

Each await on a store operation inside verifyOneTimeTokenSession is a
suspension point of the single-threaded event loop.  A caller is therefore a
small state machine whose phases sit between the store operations: find the
record, delete it, resolve the session, create the successor session.  Two
concurrent callers are executed by interleaving these atomic steps. -/

instance {ε α : Type} [DecidableEq ε] [DecidableEq α] : DecidableEq (Except ε α) := fun a b =>
  match a, b with
  | .ok x, .ok y => if h : x = y then .isTrue (by rw [h]) else .isFalse (by simp [h])
  | .error x, .error y => if h : x = y then .isTrue (by rw [h]) else .isFalse (by simp [h])
  | .ok _, .error _ => .isFalse (by simp)
  | .error _, .ok _ => .isFalse (by simp)

/-- The phase of one in-flight verify call, between store operations. -/
inductive CallerPhase where
  | ready
  | expiredDelete (v : VerificationRecord)
  | willDelete (v : VerificationRecord)
  | willResolve (value : String)
  | willCreate (sp : SessionPair)
  | done (r : Except ApiError VerifyResult)
deriving DecidableEq

/-- One atomic step of a verify call: performs at most one store operation
and moves to the next phase.  Mirrors the branches of
verifyOneTimeTokenSession exactly. -/
def stepCaller (opts : Options) (now : Nat) (token : String) :
    CallerPhase → Store → CallerPhase × Store
  | .ready, st =>
    if token.length < 1 then (.done (.error tokenRequiredError), st)
    else
      match findVerificationValue st ("one-time-token:" ++ storeToken opts token) with
      | none => (.done (.error invalidTokenError), st)
      | some v =>
        if v.expiresAt < now then (.expiredDelete v, st) else (.willDelete v, st)
  | .expiredDelete v, st =>
    (.done (.error tokenExpiredError), deleteVerificationValue st v.id)
  | .willDelete v, st =>
    (.willResolve v.value, deleteVerificationValue st v.id)
  | .willResolve value, st =>
    match findSession st value with
    | none => (.done (.error sessionNotFoundError), st)
    | some sp =>
      if opts.createSession then (.willCreate sp, st)
      else (.done (.ok ⟨sp.session, sp.user, none⟩), st)
  | .willCreate sp, st =>
    let cs := createSession st sp.session.userId
    let newSession := cs.fst
    let st2 := setSessionCookie cs.snd ⟨newSession, sp.user⟩
    (.done (.ok ⟨newSession, sp.user, some newSession.token⟩), st2)
  | .done r, st => (.done r, st)

/-- Interleave two verify calls under a schedule: true steps caller one,
false steps caller two. -/
def runTwo (opts : Options) (now : Nat) (t1 t2 : String) :
    List Bool → CallerPhase → CallerPhase → Store → CallerPhase × CallerPhase × Store
  | [], c1, c2, st => (c1, c2, st)
  | b :: rest, c1, c2, st =>
    if b then
      let s := stepCaller opts now t1 c1 st
      runTwo opts now t1 t2 rest s.fst c2 s.snd
    else
      let s := stepCaller opts now t2 c2 st
      runTwo opts now t1 t2 rest c1 s.fst s.snd

/-- Run one caller five steps: enough to reach the done phase from any phase
(done is a fixed point of stepCaller). -/
def step5 (opts : Options) (now : Nat) (token : String)
    (c : CallerPhase) (st : Store) : CallerPhase × Store :=
  let s1 := stepCaller opts now token c st
  let s2 := stepCaller opts now token s1.fst s1.snd
  let s3 := stepCaller opts now token s2.fst s2.snd
  let s4 := stepCaller opts now token s3.fst s3.snd
  stepCaller opts now token s4.fst s4.snd

/-- Extract the response of a finished caller. -/
def resultOf : CallerPhase → Except ApiError VerifyResult
  | .done r => r
  | _ => .error ⟨"INTERNAL", "caller did not finish"⟩

/-- Run two concurrent verify calls of t1 and t2: interleave under the given
schedule, then run caller one to completion, then caller two.  Returns both
responses and the final state. -/
def runBoth (opts : Options) (now : Nat) (t1 t2 : String)
    (sched : List Bool) (st : Store) :
    Except ApiError VerifyResult × Except ApiError VerifyResult × Store :=
  let r := runTwo opts now t1 t2 sched .ready .ready st
  let f1 := step5 opts now t1 r.fst r.snd.snd
  let f2 := step5 opts now t2 r.snd.fst f1.snd
  (resultOf f1.fst, resultOf f2.fst, f2.snd)

/-! ### Invariants of the two-caller interleaving

Relative to a base store st whose record v for the redeemed token resolves to
the session pair sp, a caller that has completed both its find and its delete
is in an active phase, a caller that has not yet performed its find — or that
already failed — is in a blocked phase. -/

/-- Phases of a caller past its delete: about to resolve the session, about
to create the successor session, or finished successfully; in each case the
store's verification table is the base table with v removed. -/
def activePhase (st : Store) (v : VerificationRecord) (sp : SessionPair)
    (c : CallerPhase) (cur : Store) : Prop :=
  (c = .willResolve v.value ∧ cur = deleteVerificationValue st v.id) ∨
  (c = .willCreate sp ∧ cur = deleteVerificationValue st v.id) ∨
  (∃ r, c = .done r ∧ isOkResult r = true ∧
    cur.verifications = (deleteVerificationValue st v.id).verifications)

/-- Phases of a caller that has not yet performed its find, or that found
nothing and failed. -/
def blockedPhase (c : CallerPhase) : Prop :=
  c = .ready ∨ c = .done (.error invalidTokenError)

/-- Phases of a caller running alone from the start on the base store. -/
def soloPhase (st : Store) (v : VerificationRecord) (sp : SessionPair)
    (c : CallerPhase) (cur : Store) : Prop :=
  (c = .ready ∧ cur = st) ∨ (c = .willDelete v ∧ cur = st) ∨
  activePhase st v sp c cur

/-! ### Concrete fixtures used by witnesses and counterexamples -/

/-- A store holding one verification record bound to one live session. -/
def sampleStore : Store :=
  ⟨[⟨0, "one-time-token:T", "stok", 1000⟩], 1, [⟨"stok", "u1"⟩], [⟨"u1"⟩], 0, none⟩

/-- Options with createSession disabled, defaults otherwise. -/
def sampleOpts : Options := { createSession := false }

/-- The authenticated session pair living in sampleStore. -/
def samplePair : SessionPair := ⟨⟨"stok", "u1"⟩, ⟨"u1"⟩⟩

/-- A store whose only verification record is bound to a session token that
no session resolves. -/
def orphanStore : Store :=
  ⟨[⟨0, "one-time-token:T", "gone", 1000⟩], 1, [⟨"stok", "u1"⟩], [⟨"u1"⟩], 0, none⟩

/-- A store holding a verification record issued for the single-space token
under the plain transform. -/
def whitespaceStore : Store :=
  ⟨[⟨0, "one-time-token: ", "stok", 1000⟩], 1, [⟨"stok", "u1"⟩], [⟨"u1"⟩], 0, none⟩

/-- Options selecting the hashed transform with a custom generator returning
the empty token. -/
def emptyTokenHashedOpts : Options :=
  { storeToken := .hashed, generateToken := some (fun _ => "") }

/-- Options selecting the hashed transform with the deterministic generator
used in the test suite. -/
def hashedOpts : Options :=
  { storeToken := .hashed, generateToken := some (fun _ => "123456") }

/-! ### Sanity checks of the hash embedding against standard test vectors -/

set_option maxRecDepth 400000 in
/-- The embedded hasher agrees with SHA-256("abc") in base64url form. -/
theorem defaultKeyHasher_vector_abc :
    defaultKeyHasher "abc" = "ungWv48Bz-pBQUDeXa4iI7ADYaOWF3qctBD_YfIAFa0" := by
  decide

set_option maxRecDepth 400000 in
/-- The embedded hasher agrees with SHA-256 of the empty string in base64url
form. -/
theorem defaultKeyHasher_vector_empty :
    defaultKeyHasher "" = "47DEQpj8HBSa-_TImW-5JCeuQeRkm5NMpJWZG3hSuFU" := by
  decide

/-! ### Helper lemmas -/

/-- Deleting a verification record does not change session resolution. -/
theorem findSession_deleteVerificationValue (st : Store) (i : Nat) (tok : String) :
    findSession (deleteVerificationValue st i) tok = findSession st tok := rfl

/-- Creating a session does not change the verification table. -/
theorem findVerificationValue_createSession (st : Store) (u ident : String) :
    findVerificationValue (createSession st u).snd ident = findVerificationValue st ident := rfl

/-- Setting the session cookie does not change the verification table. -/
theorem findVerificationValue_setSessionCookie (st : Store) (sp : SessionPair) (ident : String) :
    findVerificationValue (setSessionCookie st sp) ident = findVerificationValue st ident := rfl

/-- Creating a verification record does not change session resolution. -/
theorem findSession_createVerificationValue (st : Store) (a b : String) (e : Nat) (tok : String) :
    findSession (createVerificationValue st a b e) tok = findSession st tok := rfl

/-- Record lookup only depends on the verification table. -/
theorem findVerificationValue_congr (st st2 : Store) (ident : String)
    (h : st2.verifications = st.verifications) :
    findVerificationValue st2 ident = findVerificationValue st ident := by
  unfold findVerificationValue
  rw [h]

/-- After deleting the record that a lookup found, no record with that
identifier remains, provided records sharing the identifier share their id. -/
theorem find_filtered_none (l : List VerificationRecord) (v : VerificationRecord) (ident : String)
    (hfind : l.find? (fun r => r.identifier = ident) = some v)
    (huniq : ∀ r1 ∈ l, ∀ r2 ∈ l,
      r1.identifier = ident → r2.identifier = ident → r1.id = r2.id) :
    (l.filter (fun r => r.id ≠ v.id)).find? (fun r => r.identifier = ident) = none := by
  rw [List.find?_eq_none]
  intro r hr hpred
  rw [List.mem_filter] at hr
  obtain ⟨hrl, hrid⟩ := hr
  have hvmem := List.mem_of_find?_eq_some hfind
  have hvpred : v.identifier = ident := by simpa using List.find?_some hfind
  have hrident : r.identifier = ident := by simpa using hpred
  have heq : r.id = v.id := huniq r hrl v hvmem hrident hvpred
  simp only [ne_eq, decide_not, Bool.not_eq_eq_eq_not, Bool.not_true, decide_eq_false_iff_not] at hrid
  exact hrid heq

/-- find? of an appended singleton when nothing earlier matches. -/
theorem find_append_singleton (l : List VerificationRecord) (p : VerificationRecord → Bool)
    (r : VerificationRecord) (hl : ∀ x ∈ l, ¬ p x) (hr : p r = true) :
    (l ++ [r]).find? p = some r := by
  induction l with
  | nil => simp [List.find?, hr]
  | cons a t ih =>
    have ha : p a = false := by
      have := hl a (List.mem_cons_self a t)
      cases hpa : p a
      · rfl
      · exact absurd hpa this
    rw [List.cons_append, List.find?_cons_of_neg _ (by simp [ha])]
    exact ih (fun x hx => hl x (List.mem_cons_of_mem a hx))

/-- Characterization of verify when the lookup fails: the invalid-token error
with the store untouched. -/
theorem verify_invalid_of_no_record (opts : Options) (now : Nat) (T : String) (st : Store)
    (hT : 1 ≤ T.length)
    (hfind : findVerificationValue st ("one-time-token:" ++ storeToken opts T) = none) :
    verifyOneTimeTokenSession opts now T st = (.error invalidTokenError, st) := by
  simp only [verifyOneTimeTokenSession, if_neg (Nat.not_lt.mpr hT), hfind]

/-- Once verify finds a live record, the post-state verification table is the
input table with that record deleted, whatever happens afterwards. -/
theorem verify_snd_verifications (opts : Options) (now : Nat) (T : String) (st : Store)
    (v : VerificationRecord)
    (hT : 1 ≤ T.length)
    (hfind : findVerificationValue st ("one-time-token:" ++ storeToken opts T) = some v)
    (hexp : ¬ v.expiresAt < now) :
    (verifyOneTimeTokenSession opts now T st).snd.verifications
      = st.verifications.filter (fun r => r.id ≠ v.id) := by
  simp only [verifyOneTimeTokenSession, if_neg (Nat.not_lt.mpr hT), hfind, if_neg hexp]
  cases hs : findSession (deleteVerificationValue st v.id) v.value with
  | none => rfl
  | some sp =>
    by_cases hc : opts.createSession
    · simp [hc, createSession, setSessionCookie, deleteVerificationValue]
    · simp [hc, deleteVerificationValue]

/-- Characterization of a successful verify: lookup succeeds, the record is
unexpired and its session resolves. -/
theorem verify_ok_of (opts : Options) (now : Nat) (T : String) (st : Store)
    (v : VerificationRecord) (sp : SessionPair)
    (hT : 1 ≤ T.length)
    (hfind : findVerificationValue st ("one-time-token:" ++ storeToken opts T) = some v)
    (hexp : ¬ v.expiresAt < now)
    (hsess : findSession st v.value = some sp) :
    isOkResult (verifyOneTimeTokenSession opts now T st).fst = true := by
  simp only [verifyOneTimeTokenSession, if_neg (Nat.not_lt.mpr hT), hfind, if_neg hexp,
    findSession_deleteVerificationValue, hsess]
  by_cases hc : opts.createSession
  · simp [hc, isOkResult]
  · simp [hc, isOkResult]

/-! ### Helper lemmas for the interleaving semantics -/

/-- A finished caller is a fixed point of the step function. -/
theorem stepCaller_done (opts : Options) (now : Nat) (T : String)
    (r : Except ApiError VerifyResult) (st : Store) :
    stepCaller opts now T (.done r) st = (.done r, st) := rfl

/-- The delete step: remove the found record, go resolve its value. -/
theorem stepCaller_willDelete (opts : Options) (now : Nat) (T : String)
    (v : VerificationRecord) (st : Store) :
    stepCaller opts now T (.willDelete v) st
      = (.willResolve v.value, deleteVerificationValue st v.id) := rfl

/-- The session-creation step: create the successor session, set the cookie,
finish successfully. -/
theorem stepCaller_willCreate (opts : Options) (now : Nat) (T : String)
    (sp : SessionPair) (st : Store) :
    stepCaller opts now T (.willCreate sp) st
      = (.done (.ok ⟨(createSession st sp.session.userId).fst, sp.user,
          some (createSession st sp.session.userId).fst.token⟩),
         setSessionCookie (createSession st sp.session.userId).snd
           ⟨(createSession st sp.session.userId).fst, sp.user⟩) := rfl

/-- Interleaving equations: the empty schedule changes nothing. -/
theorem runTwo_nil (opts : Options) (now : Nat) (t1 t2 : String)
    (c1 c2 : CallerPhase) (st : Store) :
    runTwo opts now t1 t2 [] c1 c2 st = (c1, c2, st) := rfl

/-- A true schedule entry steps caller one. -/
theorem runTwo_cons_true (opts : Options) (now : Nat) (t1 t2 : String)
    (rest : List Bool) (c1 c2 : CallerPhase) (st : Store) :
    runTwo opts now t1 t2 (true :: rest) c1 c2 st
      = runTwo opts now t1 t2 rest (stepCaller opts now t1 c1 st).fst c2
          (stepCaller opts now t1 c1 st).snd := rfl

/-- A false schedule entry steps caller two. -/
theorem runTwo_cons_false (opts : Options) (now : Nat) (t1 t2 : String)
    (rest : List Bool) (c1 c2 : CallerPhase) (st : Store) :
    runTwo opts now t1 t2 (false :: rest) c1 c2 st
      = runTwo opts now t1 t2 rest c1 (stepCaller opts now t2 c2 st).fst
          (stepCaller opts now t2 c2 st).snd := rfl

/-- In every active phase the verification table is the base table with the
redeemed record removed. -/
theorem active_verifications (st : Store) (v : VerificationRecord) (sp : SessionPair)
    (c : CallerPhase) (cur : Store) (h : activePhase st v sp c cur) :
    cur.verifications = (deleteVerificationValue st v.id).verifications := by
  rcases h with ⟨_, hcur⟩ | ⟨_, hcur⟩ | ⟨r, _, _, hcur⟩
  · rw [hcur]
  · rw [hcur]
  · exact hcur

/-- On a store whose verification table is the base table with the found
record removed, the redeemed token's lookup fails. -/
theorem find_burned_none (opts : Options) (T : String) (st : Store)
    (v : VerificationRecord) (cur : Store)
    (hfind : findVerificationValue st ("one-time-token:" ++ storeToken opts T) = some v)
    (huniq : ∀ r1 ∈ st.verifications, ∀ r2 ∈ st.verifications,
      r1.identifier = "one-time-token:" ++ storeToken opts T →
      r2.identifier = "one-time-token:" ++ storeToken opts T → r1.id = r2.id)
    (hcur : cur.verifications = (deleteVerificationValue st v.id).verifications) :
    findVerificationValue cur ("one-time-token:" ++ storeToken opts T) = none := by
  unfold findVerificationValue
  rw [hcur]
  exact find_filtered_none st.verifications v _ hfind huniq

/-- A step of an active caller stays active: it resolves the session found in
the base store, optionally creates the successor session, and finishes
successfully, never touching the verification table again. -/
theorem active_step (opts : Options) (now : Nat) (T : String) (st : Store)
    (v : VerificationRecord) (sp : SessionPair)
    (hsess : findSession st v.value = some sp)
    (c : CallerPhase) (cur : Store) (h : activePhase st v sp c cur) :
    activePhase st v sp (stepCaller opts now T c cur).fst
      (stepCaller opts now T c cur).snd := by
  rcases h with ⟨hc, hcur⟩ | ⟨hc, hcur⟩ | ⟨r, hc, hr, hcur⟩
  · subst hc
    subst hcur
    by_cases hcs : opts.createSession
    · have hs : stepCaller opts now T (.willResolve v.value)
          (deleteVerificationValue st v.id)
          = (.willCreate sp, deleteVerificationValue st v.id) := by
        simp [stepCaller, findSession_deleteVerificationValue, hsess, hcs]
      rw [hs]
      exact Or.inr (Or.inl ⟨rfl, rfl⟩)
    · have hs : stepCaller opts now T (.willResolve v.value)
          (deleteVerificationValue st v.id)
          = (.done (.ok ⟨sp.session, sp.user, none⟩), deleteVerificationValue st v.id) := by
        simp [stepCaller, findSession_deleteVerificationValue, hsess, hcs]
      rw [hs]
      exact Or.inr (Or.inr ⟨.ok ⟨sp.session, sp.user, none⟩, rfl, rfl, rfl⟩)
  · subst hc
    subst hcur
    rw [stepCaller_willCreate]
    exact Or.inr (Or.inr ⟨_, rfl, rfl, rfl⟩)
  · subst hc
    rw [stepCaller_done]
    exact Or.inr (Or.inr ⟨r, rfl, hr, hcur⟩)

/-- A step of a blocked caller stays blocked and leaves the store unchanged:
its find fails on the burned table, or it is already finished. -/
theorem blocked_step (opts : Options) (now : Nat) (T : String) (st : Store)
    (v : VerificationRecord)
    (hT : 1 ≤ T.length)
    (hfind : findVerificationValue st ("one-time-token:" ++ storeToken opts T) = some v)
    (huniq : ∀ r1 ∈ st.verifications, ∀ r2 ∈ st.verifications,
      r1.identifier = "one-time-token:" ++ storeToken opts T →
      r2.identifier = "one-time-token:" ++ storeToken opts T → r1.id = r2.id)
    (c : CallerPhase) (cur : Store) (hb : blockedPhase c)
    (hcur : cur.verifications = (deleteVerificationValue st v.id).verifications) :
    stepCaller opts now T c cur = ((stepCaller opts now T c cur).fst, cur) ∧
    blockedPhase (stepCaller opts now T c cur).fst := by
  rcases hb with hc | hc
  · subst hc
    have hn := find_burned_none opts T st v cur hfind huniq hcur
    have hs : stepCaller opts now T .ready cur
        = (.done (.error invalidTokenError), cur) := by
      simp only [stepCaller, if_neg (Nat.not_lt.mpr hT), hn]
    rw [hs]
    exact ⟨rfl, Or.inr rfl⟩
  · subst hc
    rw [stepCaller_done]
    exact ⟨rfl, Or.inr rfl⟩

/-- A step of a caller running alone stays in a solo phase: find the record,
delete it, then continue as an active caller. -/
theorem solo_step (opts : Options) (now : Nat) (T : String) (st : Store)
    (v : VerificationRecord) (sp : SessionPair)
    (hT : 1 ≤ T.length)
    (hfind : findVerificationValue st ("one-time-token:" ++ storeToken opts T) = some v)
    (hexp : ¬ v.expiresAt < now)
    (hsess : findSession st v.value = some sp)
    (c : CallerPhase) (cur : Store) (h : soloPhase st v sp c cur) :
    soloPhase st v sp (stepCaller opts now T c cur).fst
      (stepCaller opts now T c cur).snd := by
  rcases h with ⟨hc, hcur⟩ | ⟨hc, hcur⟩ | ha
  · rw [hc, hcur]
    have hs : stepCaller opts now T .ready st = (.willDelete v, st) := by
      simp only [stepCaller, if_neg (Nat.not_lt.mpr hT), hfind, if_neg hexp]
    rw [hs]
    exact Or.inr (Or.inl ⟨rfl, rfl⟩)
  · rw [hc, hcur]
    rw [stepCaller_willDelete]
    exact Or.inr (Or.inr (Or.inl ⟨rfl, rfl⟩))
  · exact Or.inr (Or.inr (active_step opts now T st v sp hsess c cur ha))

/-! ### C1: single use -/

/-- Claim C1: for a token whose verification record is stored under a unique
identifier, once a verify call reaches the invalidation step (it succeeds, or
fails only at session resolution), every subsequent verify of the same token
fails with the BAD_REQUEST "Invalid token" error, because the record was
deleted before the bound session was resolved. -/
theorem verify_single_use (opts : Options) (now now2 : Nat) (T : String) (st : Store)
    (huniq : ∀ r1 ∈ st.verifications, ∀ r2 ∈ st.verifications,
      r1.identifier = "one-time-token:" ++ storeToken opts T →
      r2.identifier = "one-time-token:" ++ storeToken opts T → r1.id = r2.id)
    (h : isOkResult (verifyOneTimeTokenSession opts now T st).fst = true ∨
         (verifyOneTimeTokenSession opts now T st).fst = .error sessionNotFoundError) :
    (verifyOneTimeTokenSession opts now2 T
        (verifyOneTimeTokenSession opts now T st).snd).fst
      = .error invalidTokenError := by
  by_cases hT : T.length < 1
  · exfalso
    simp only [verifyOneTimeTokenSession, if_pos hT, isOkResult] at h
    rcases h with h | h
    · exact Bool.false_ne_true h
    · exact absurd h (by decide)
  · have hT1 : 1 ≤ T.length := Nat.not_lt.mp hT
    cases hfind : findVerificationValue st ("one-time-token:" ++ storeToken opts T) with
    | none =>
      exfalso
      simp only [verifyOneTimeTokenSession, if_neg hT, hfind, isOkResult] at h
      rcases h with h | h
      · exact Bool.false_ne_true h
      · exact absurd h (by decide)
    | some v =>
      by_cases hexp : v.expiresAt < now
      · exfalso
        simp only [verifyOneTimeTokenSession, if_neg hT, hfind, if_pos hexp, isOkResult] at h
        rcases h with h | h
        · exact Bool.false_ne_true h
        · exact absurd h (by decide)
      · have hverifs := verify_snd_verifications opts now T st v hT1 hfind hexp
        have hnone : findVerificationValue (verifyOneTimeTokenSession opts now T st).snd
            ("one-time-token:" ++ storeToken opts T) = none := by
          have hfind2 : st.verifications.find?
              (fun r => r.identifier = "one-time-token:" ++ storeToken opts T) = some v := hfind
          have := find_filtered_none st.verifications v
            ("one-time-token:" ++ storeToken opts T) hfind2 huniq
          unfold findVerificationValue
          rw [hverifs]
          exact this
        set st2 := (verifyOneTimeTokenSession opts now T st).snd with hst2
        simp only [verifyOneTimeTokenSession, if_neg hT, hnone]

/-- Witness for C1 at a concrete store: the first verify succeeds, the second
fails with the invalid-token error. -/
theorem verify_single_use_witness :
    (verifyOneTimeTokenSession sampleOpts 600 "T"
        (verifyOneTimeTokenSession sampleOpts 500 "T" sampleStore).snd).fst
      = .error invalidTokenError := by
  apply verify_single_use
  · decide
  · left
    decide

/-! ### C2: expiry boundary -/

/-- Counterexample to C2 as stated: in sampleStore the record expires at
time 1000; a verify at current time exactly 1000 does not fail with the
token-expired error — it succeeds — because the code compares with a strict
expiresAt < now. -/
theorem verify_expiry_boundary_counterexample :
    findVerificationValue sampleStore "one-time-token:T"
      = some ⟨0, "one-time-token:T", "stok", 1000⟩ ∧
    (verifyOneTimeTokenSession sampleOpts 1000 "T" sampleStore).fst
      ≠ .error tokenExpiredError ∧
    isOkResult (verifyOneTimeTokenSession sampleOpts 1000 "T" sampleStore).fst = true := by
  decide

/-- Claim C2 (amended): once a record is found, verify fails with the
BAD_REQUEST "Token expired" error, after deleting the record, exactly when the
record's expiresAt is strictly before the current time; when expiresAt is at
or after the current time the expiry check passes and the token-expired error
is not raised. -/
theorem verify_expiry_boundary (opts : Options) (now : Nat) (T : String) (st : Store)
    (v : VerificationRecord)
    (hT : 1 ≤ T.length)
    (hfind : findVerificationValue st ("one-time-token:" ++ storeToken opts T) = some v) :
    (v.expiresAt < now →
      verifyOneTimeTokenSession opts now T st
        = (.error tokenExpiredError, deleteVerificationValue st v.id)) ∧
    (now ≤ v.expiresAt →
      (verifyOneTimeTokenSession opts now T st).fst ≠ .error tokenExpiredError) := by
  constructor
  · intro hexp
    simp only [verifyOneTimeTokenSession, if_neg (Nat.not_lt.mpr hT), hfind, if_pos hexp]
  · intro hle
    have hexp : ¬ v.expiresAt < now := Nat.not_lt.mpr hle
    simp only [verifyOneTimeTokenSession, if_neg (Nat.not_lt.mpr hT), hfind, if_neg hexp]
    cases hs : findSession (deleteVerificationValue st v.id) v.value with
    | none => simp [sessionNotFoundError, tokenExpiredError]
    | some sp =>
      by_cases hc : opts.createSession
      · simp [hc]
      · simp [hc]

/-- Witness for C2 (amended): at time 1001 the record expiring at 1000 yields
the token-expired error with the record deleted; at time 999 no token-expired
error arises. -/
theorem verify_expiry_boundary_witness :
    (verifyOneTimeTokenSession sampleOpts 1001 "T" sampleStore
      = (.error tokenExpiredError, deleteVerificationValue sampleStore 0)) ∧
    (verifyOneTimeTokenSession sampleOpts 999 "T" sampleStore).fst
      ≠ .error tokenExpiredError := by
  constructor
  · exact (verify_expiry_boundary sampleOpts 1001 "T" sampleStore
      ⟨0, "one-time-token:T", "stok", 1000⟩ (by decide) (by decide)).1 (by decide)
  · exact (verify_expiry_boundary sampleOpts 999 "T" sampleStore
      ⟨0, "one-time-token:T", "stok", 1000⟩ (by decide) (by decide)).2 (by decide)

/-! ### C3: generate with disableClientRequest -/

/-- Counterexample to C3 as stated: a network-originated generate call with
disableClientRequest set fails, but the raised error is BAD_REQUEST
"Client requests are disabled", not a FORBIDDEN-class error. -/
theorem generate_forbidden_counterexample :
    (generateOneTimeTokenSession { disableClientRequest := true } 0 true
        samplePair "r" sampleStore).fst
      = .error clientRequestsDisabledError ∧
    clientRequestsDisabledError.status = "BAD_REQUEST" ∧
    clientRequestsDisabledError.status ≠ "FORBIDDEN" := by
  decide

/-- Claim C3 (amended): with disableClientRequest set, every network-originated
generate call fails with the BAD_REQUEST "Client requests are disabled" error
before any state is touched (the store is returned unchanged, so no token is
generated and no verification record is created), while a server-initiated
call (no request object) behaves exactly as if the option were unset. -/
theorem generate_client_request_disabled (opts : Options) (now : Nat)
    (session : SessionPair) (rand : String) (st : Store)
    (hd : opts.disableClientRequest = true) :
    generateOneTimeTokenSession opts now true session rand st
      = (.error clientRequestsDisabledError, st) ∧
    generateOneTimeTokenSession opts now false session rand st
      = generateOneTimeTokenSession { opts with disableClientRequest := false }
          now false session rand st := by
  constructor
  · simp only [generateOneTimeTokenSession, hd, Bool.and_self, if_pos]
  · simp only [generateOneTimeTokenSession, Bool.and_false, Bool.false_eq_true, if_false]
    rfl

/-- Witness for C3 (amended) at concrete inputs. -/
theorem generate_client_request_disabled_witness :
    generateOneTimeTokenSession { disableClientRequest := true } 5 true
        samplePair "r" sampleStore
      = (.error clientRequestsDisabledError, sampleStore) ∧
    generateOneTimeTokenSession { disableClientRequest := true } 5 false
        samplePair "r" sampleStore
      = generateOneTimeTokenSession
          { ({ disableClientRequest := true } : Options) with disableClientRequest := false }
          5 false samplePair "r" sampleStore :=
  generate_client_request_disabled { disableClientRequest := true } 5
    samplePair "r" sampleStore rfl

/-! ### C4: input validation of the verify body -/

/-- Counterexample to C4 as stated: the whitespace-only token " " passes the
z.string().min(1) validation (its length is 1), reaches the store and — with a
matching record present — verify even succeeds, instead of failing validation
before any store access. -/
theorem verify_whitespace_counterexample :
    isOkResult (verifyOneTimeTokenSession sampleOpts 500 " " whitespaceStore).fst = true ∧
    (verifyOneTimeTokenSession sampleOpts 500 " " whitespaceStore).snd ≠ whitespaceStore := by
  decide

/-- Claim C4 (amended): only the empty token fails the body validation: verify
of "" returns the BAD_REQUEST validation error with the store untouched (so no
transform result is consulted and no record is looked up or deleted), while
every token of length at least one — including whitespace-only strings —
passes validation and never produces the validation error. -/
theorem verify_empty_token_validation (opts : Options) (now : Nat) (st : Store) :
    verifyOneTimeTokenSession opts now "" st = (.error tokenRequiredError, st) ∧
    tokenRequiredError.status = "BAD_REQUEST" ∧
    ∀ T : String, 1 ≤ T.length →
      (verifyOneTimeTokenSession opts now T st).fst ≠ .error tokenRequiredError := by
  refine ⟨rfl, rfl, ?_⟩
  intro T hT
  simp only [verifyOneTimeTokenSession, if_neg (Nat.not_lt.mpr hT)]
  cases hfind : findVerificationValue st ("one-time-token:" ++ storeToken opts T) with
  | none => simp [invalidTokenError, tokenRequiredError]
  | some v =>
    by_cases hexp : v.expiresAt < now
    · simp [hexp, tokenExpiredError, tokenRequiredError]
    · simp only [if_neg hexp]
      cases hs : findSession (deleteVerificationValue st v.id) v.value with
      | none => simp [sessionNotFoundError, tokenRequiredError]
      | some sp =>
        by_cases hc : opts.createSession
        · simp [hc]
        · simp [hc]

/-- Witness for C4 (amended): at a concrete store, verify of "" fails
validation with the store unchanged and verify of "x" does not raise the
validation error. -/
theorem verify_empty_token_validation_witness :
    verifyOneTimeTokenSession sampleOpts 500 "" sampleStore
      = (.error tokenRequiredError, sampleStore) ∧
    (verifyOneTimeTokenSession sampleOpts 500 "x" sampleStore).fst
      ≠ .error tokenRequiredError := by
  refine ⟨(verify_empty_token_validation sampleOpts 500 sampleStore).1, ?_⟩
  exact (verify_empty_token_validation sampleOpts 500 sampleStore).2.2 "x" (by decide)

/-! ### C5: hashed storage-transform round trip -/

/-- Counterexample to C5 as stated: with the hashed transform and a generator
returning the empty string, generate succeeds and persists a record, but the
subsequent verify of that logical token does not succeed — it fails the body
validation — so the round trip does not hold for every logical token. -/
theorem hashed_round_trip_counterexample :
    (generateOneTimeTokenSession emptyTokenHashedOpts 0 false samplePair "r" sampleStore).fst
      = .ok ⟨""⟩ ∧
    (generateOneTimeTokenSession emptyTokenHashedOpts 0 false samplePair "r"
        sampleStore).snd.verifications.length
      = sampleStore.verifications.length + 1 ∧
    (verifyOneTimeTokenSession emptyTokenHashedOpts 0 ""
        (generateOneTimeTokenSession emptyTokenHashedOpts 0 false samplePair "r"
          sampleStore).snd).fst
      = .error tokenRequiredError := by
  refine ⟨rfl, rfl, rfl⟩

/-- Claim C5 (amended): with storeToken = "hashed", for every nonempty logical
token T produced by a successful generate, the persisted record's identifier
equals "one-time-token:" ++ base64url(SHA-256(T)) and a subsequent verify of T
recomputes the same identifier and succeeds, provided the issuing session is
still resolvable and no earlier record uses the same identifier. -/
theorem hashed_round_trip (opts : Options) (now : Nat) (hasRequest : Bool)
    (sess : SessionPair) (rand : String) (st st2 : Store) (T : String) (sp : SessionPair)
    (hst : opts.storeToken = StoreTokenOption.hashed)
    (hT : T ≠ "")
    (hgen : generateOneTimeTokenSession opts now hasRequest sess rand st = (.ok ⟨T⟩, st2))
    (hnoprior : ∀ r ∈ st.verifications,
      r.identifier ≠ "one-time-token:" ++ defaultKeyHasher T)
    (hsess : findSession st sess.session.token = some sp) :
    (∃ r ∈ st2.verifications,
      r.identifier = "one-time-token:" ++ defaultKeyHasher T ∧
      r.value = sess.session.token) ∧
    isOkResult (verifyOneTimeTokenSession opts now T st2).fst = true := by
  have hT1 : 1 ≤ T.length := by
    rcases T with ⟨data⟩
    cases data with
    | nil => exact absurd rfl hT
    | cons c cs => simp [String.length]
  have hstore : storeToken opts T = defaultKeyHasher T := by
    unfold storeToken
    rw [hst]
  unfold generateOneTimeTokenSession at hgen
  by_cases hbc : (opts.disableClientRequest && hasRequest) = true
  · rw [if_pos hbc] at hgen
    exact absurd (congrArg Prod.fst hgen) (by simp)
  · rw [if_neg hbc] at hgen
    simp only [Prod.mk.injEq, Except.ok.injEq, GenerateResult.mk.injEq] at hgen
    obtain ⟨hTtok, hst2⟩ := hgen
    rw [hTtok, hstore] at hst2
    have hst2e : st2 = createVerificationValue st sess.session.token
        ("one-time-token:" ++ defaultKeyHasher T) (now + opts.expiresIn * 60 * 1000) :=
      hst2.symm
    subst hst2e
    have hfind2 : findVerificationValue
        (createVerificationValue st sess.session.token
          ("one-time-token:" ++ defaultKeyHasher T) (now + opts.expiresIn * 60 * 1000))
        ("one-time-token:" ++ storeToken opts T)
        = some ⟨st.nextVerificationId, "one-time-token:" ++ defaultKeyHasher T,
            sess.session.token, now + opts.expiresIn * 60 * 1000⟩ := by
      unfold findVerificationValue createVerificationValue
      simp only
      rw [storeToken, hst]
      apply find_append_singleton
      · intro x hx
        simp only [decide_eq_true_eq]
        exact hnoprior x hx
      · simp
    constructor
    · refine ⟨⟨st.nextVerificationId, "one-time-token:" ++ defaultKeyHasher T,
        sess.session.token, now + opts.expiresIn * 60 * 1000⟩, ?_, rfl, rfl⟩
      unfold createVerificationValue
      simp
    · exact verify_ok_of opts now T _ _ sp hT1 hfind2
        (Nat.not_lt.mpr (Nat.le_add_right now _))
        (by rw [findSession_createVerificationValue]; exact hsess)

set_option maxRecDepth 400000 in
/-- Witness for C5 (amended) at the deterministic token "123456" from the test
suite: the persisted identifier is the namespaced SHA-256 base64url digest and
verify succeeds. -/
theorem hashed_round_trip_witness :
    (∃ r ∈ (generateOneTimeTokenSession hashedOpts 0 false samplePair "r"
        sampleStore).snd.verifications,
      r.identifier = "one-time-token:" ++ defaultKeyHasher "123456" ∧
      r.value = samplePair.session.token) ∧
    isOkResult (verifyOneTimeTokenSession hashedOpts 0 "123456"
        (generateOneTimeTokenSession hashedOpts 0 false samplePair "r"
          sampleStore).snd).fst = true := by
  exact hashed_round_trip hashedOpts 0 false samplePair "r" sampleStore
    (generateOneTimeTokenSession hashedOpts 0 false samplePair "r" sampleStore).snd
    "123456" samplePair rfl (by decide) rfl (by decide) (by decide)

/-! ### C6: generate postcondition -/

/-- Claim C6: every successful generate call appends exactly one verification
record, whose identifier is the namespaced transformed token, whose value is
the durable token of the current session (not the one-time token) and whose
expiry is now plus expiresIn minutes; the token handed back to the caller is
the logical, untransformed token (the custom generator's output, or the
random string when no generator is configured); the expiresIn default is 3. -/
theorem generate_postcondition (opts : Options) (now : Nat) (hasRequest : Bool)
    (session : SessionPair) (rand : String) (st st2 : Store) (tok : String)
    (hgen : generateOneTimeTokenSession opts now hasRequest session rand st
      = (.ok ⟨tok⟩, st2)) :
    st2 = { st with
      verifications := st.verifications ++
        [⟨st.nextVerificationId, "one-time-token:" ++ storeToken opts tok,
          session.session.token, now + opts.expiresIn * 60 * 1000⟩]
      nextVerificationId := st.nextVerificationId + 1 } ∧
    tok = (match opts.generateToken with
           | some g => g session
           | none => rand) ∧
    ({} : Options).expiresIn = 3 := by
  unfold generateOneTimeTokenSession at hgen
  by_cases hbc : (opts.disableClientRequest && hasRequest) = true
  · rw [if_pos hbc] at hgen
    exact absurd (congrArg Prod.fst hgen) (by simp)
  · rw [if_neg hbc] at hgen
    simp only [Prod.mk.injEq, Except.ok.injEq, GenerateResult.mk.injEq] at hgen
    obtain ⟨hTtok, hst2⟩ := hgen
    refine ⟨?_, hTtok.symm, rfl⟩
    rw [← hst2, hTtok]
    rfl

/-- Witness for C6 at concrete inputs under the default options. -/
theorem generate_postcondition_witness :
    (generateOneTimeTokenSession {} 100 false samplePair "rnd" sampleStore).snd
      = { sampleStore with
          verifications := sampleStore.verifications ++
            [⟨sampleStore.nextVerificationId, "one-time-token:" ++ storeToken {} "rnd",
              samplePair.session.token, 100 + ({} : Options).expiresIn * 60 * 1000⟩]
          nextVerificationId := sampleStore.nextVerificationId + 1 } ∧
    ("rnd" : String) = (match ({} : Options).generateToken with
           | some g => g samplePair
           | none => "rnd") ∧
    ({} : Options).expiresIn = 3 := by
  have h := generate_postcondition {} 100 false samplePair "rnd" sampleStore
    (generateOneTimeTokenSession {} 100 false samplePair "rnd" sampleStore).snd "rnd" rfl
  exact ⟨h.1, h.2.1, h.2.2⟩

/-! ### C7: session-not-found burns the token -/

/-- Claim C7: when a live, unexpired verification record is found but no
session exists for its stored value, verify fails with the BAD_REQUEST
"Session not found" error and the returned state already has the record
deleted, so — the record's identifier being unique — every later verify of
the same token fails with the invalid-token error. -/
theorem verify_session_not_found_burns (opts : Options) (now : Nat) (T : String)
    (st : Store) (v : VerificationRecord)
    (hT : 1 ≤ T.length)
    (hfind : findVerificationValue st ("one-time-token:" ++ storeToken opts T) = some v)
    (hexp : ¬ v.expiresAt < now)
    (hsess : findSession st v.value = none)
    (huniq : ∀ r1 ∈ st.verifications, ∀ r2 ∈ st.verifications,
      r1.identifier = "one-time-token:" ++ storeToken opts T →
      r2.identifier = "one-time-token:" ++ storeToken opts T → r1.id = r2.id) :
    verifyOneTimeTokenSession opts now T st
      = (.error sessionNotFoundError, deleteVerificationValue st v.id) ∧
    ∀ now2, (verifyOneTimeTokenSession opts now2 T
        (deleteVerificationValue st v.id)).fst
      = .error invalidTokenError := by
  constructor
  · simp only [verifyOneTimeTokenSession, if_neg (Nat.not_lt.mpr hT), hfind, if_neg hexp,
      findSession_deleteVerificationValue, hsess]
  · intro now2
    have hnone : findVerificationValue (deleteVerificationValue st v.id)
        ("one-time-token:" ++ storeToken opts T) = none := by
      unfold findVerificationValue deleteVerificationValue
      exact find_filtered_none st.verifications v _ hfind huniq
    rw [verify_invalid_of_no_record opts now2 T _ hT hnone]

/-- Witness for C7: a store whose record points at a session token that no
longer resolves. -/
theorem verify_session_not_found_burns_witness :
    verifyOneTimeTokenSession sampleOpts 500 "T" orphanStore
      = (.error sessionNotFoundError, deleteVerificationValue orphanStore 0) ∧
    (verifyOneTimeTokenSession sampleOpts 700 "T"
        (deleteVerificationValue orphanStore 0)).fst
      = .error invalidTokenError := by
  have h := verify_session_not_found_burns sampleOpts 500 "T" orphanStore
    ⟨0, "one-time-token:T", "gone", 1000⟩ (by decide) (by decide) (by decide)
    (by decide) (by decide)
  exact ⟨h.1, h.2 700⟩

/-! ### C8: createSession disabled frame -/

/-- Claim C8: with createSession = false, every successful verify returns the
session and user resolved from the verification record's stored value with a
null token, and performs no session-store write: the post state has the same
session table and the same (unset) session cookie as the input state. -/
theorem verify_no_session_creation (opts : Options) (now : Nat) (T : String)
    (st st2 : Store) (res : VerifyResult)
    (hcs : opts.createSession = false)
    (hok : verifyOneTimeTokenSession opts now T st = (.ok res, st2)) :
    res.token = none ∧ st2.sessions = st.sessions ∧ st2.cookie = st.cookie ∧
    ∃ v, findVerificationValue st ("one-time-token:" ++ storeToken opts T) = some v ∧
      ∃ sp, findSession st v.value = some sp ∧
        res.session = sp.session ∧ res.user = sp.user := by
  by_cases hT : T.length < 1
  · have hv : verifyOneTimeTokenSession opts now T st = (.error tokenRequiredError, st) := by
      simp only [verifyOneTimeTokenSession, if_pos hT]
    rw [hv] at hok
    exact absurd (congrArg Prod.fst hok) (by simp)
  · cases hfind : findVerificationValue st ("one-time-token:" ++ storeToken opts T) with
    | none =>
      have hv : verifyOneTimeTokenSession opts now T st = (.error invalidTokenError, st) := by
        simp only [verifyOneTimeTokenSession, if_neg hT, hfind]
      rw [hv] at hok
      exact absurd (congrArg Prod.fst hok) (by simp)
    | some v =>
      by_cases hexp : v.expiresAt < now
      · have hv : verifyOneTimeTokenSession opts now T st
            = (.error tokenExpiredError, deleteVerificationValue st v.id) := by
          simp only [verifyOneTimeTokenSession, if_neg hT, hfind, if_pos hexp]
        rw [hv] at hok
        exact absurd (congrArg Prod.fst hok) (by simp)
      · cases hs : findSession (deleteVerificationValue st v.id) v.value with
        | none =>
          have hv : verifyOneTimeTokenSession opts now T st
              = (.error sessionNotFoundError, deleteVerificationValue st v.id) := by
            simp only [verifyOneTimeTokenSession, if_neg hT, hfind, if_neg hexp, hs]
          rw [hv] at hok
          exact absurd (congrArg Prod.fst hok) (by simp)
        | some sp =>
          have hv : verifyOneTimeTokenSession opts now T st
              = (.ok ⟨sp.session, sp.user, none⟩, deleteVerificationValue st v.id) := by
            simp only [verifyOneTimeTokenSession, if_neg hT, hfind, if_neg hexp, hs, hcs,
              Bool.false_eq_true, if_false]
          rw [hv] at hok
          simp only [Prod.mk.injEq, Except.ok.injEq] at hok
          obtain ⟨hres, hst2⟩ := hok
          subst hst2
          refine ⟨by rw [← hres], rfl, rfl, v, rfl, sp, ?_, by rw [← hres], by rw [← hres]⟩
          rw [← findSession_deleteVerificationValue st v.id v.value]
          exact hs

/-- Witness for C8 at the concrete sample store. -/
theorem verify_no_session_creation_witness :
    (⟨⟨"stok", "u1"⟩, ⟨"u1"⟩, none⟩ : VerifyResult).token = none ∧
    (verifyOneTimeTokenSession sampleOpts 500 "T" sampleStore).snd.sessions
      = sampleStore.sessions ∧
    (verifyOneTimeTokenSession sampleOpts 500 "T" sampleStore).snd.cookie
      = sampleStore.cookie ∧
    ∃ v, findVerificationValue sampleStore ("one-time-token:" ++ storeToken sampleOpts "T")
        = some v ∧
      ∃ sp, findSession sampleStore v.value = some sp ∧
        (⟨⟨"stok", "u1"⟩, ⟨"u1"⟩, none⟩ : VerifyResult).session = sp.session ∧
        (⟨⟨"stok", "u1"⟩, ⟨"u1"⟩, none⟩ : VerifyResult).user = sp.user :=
  verify_no_session_creation sampleOpts 500 "T" sampleStore
    (verifyOneTimeTokenSession sampleOpts 500 "T" sampleStore).snd
    ⟨⟨"stok", "u1"⟩, ⟨"u1"⟩, none⟩ rfl rfl

/-- Running one caller to completion from the ready phase computes exactly the
sequential verify handler. -/
theorem step5_from_ready (opts : Options) (now : Nat) (T : String) (st : Store) :
    step5 opts now T .ready st
      = (.done (verifyOneTimeTokenSession opts now T st).fst,
         (verifyOneTimeTokenSession opts now T st).snd) := by
  by_cases hT : T.length < 1
  · simp only [step5, stepCaller, verifyOneTimeTokenSession, if_pos hT]
  · cases hfind : findVerificationValue st ("one-time-token:" ++ storeToken opts T) with
    | none =>
      simp only [step5, stepCaller, verifyOneTimeTokenSession, if_neg hT, hfind]
    | some v =>
      by_cases hexp : v.expiresAt < now
      · simp only [step5, stepCaller, verifyOneTimeTokenSession, if_neg hT, hfind,
          if_pos hexp]
      · cases hs : findSession (deleteVerificationValue st v.id) v.value with
        | none =>
          simp only [step5, stepCaller, verifyOneTimeTokenSession, if_neg hT, hfind,
            if_neg hexp, hs]
        | some sp =>
          by_cases hc : opts.createSession
          · simp only [step5, stepCaller, verifyOneTimeTokenSession, if_neg hT, hfind,
              if_neg hexp, hs, hc, if_true]
          · simp only [step5, stepCaller, verifyOneTimeTokenSession, if_neg hT, hfind,
              if_neg hexp, hs, hc, Bool.false_eq_true, if_false]

/-- Any property of the two callers and the store that is preserved by a step
of either caller is preserved by every interleaving schedule. -/
theorem runTwo_inv (opts : Options) (now : Nat) (T : String)
    (P : CallerPhase → CallerPhase → Store → Prop)
    (h1 : ∀ c1 c2 cur, P c1 c2 cur →
      P (stepCaller opts now T c1 cur).fst c2 (stepCaller opts now T c1 cur).snd)
    (h2 : ∀ c1 c2 cur, P c1 c2 cur →
      P c1 (stepCaller opts now T c2 cur).fst (stepCaller opts now T c2 cur).snd) :
    ∀ (sched : List Bool) (c1 c2 : CallerPhase) (cur : Store), P c1 c2 cur →
      P (runTwo opts now T T sched c1 c2 cur).fst
        (runTwo opts now T T sched c1 c2 cur).snd.fst
        (runTwo opts now T T sched c1 c2 cur).snd.snd := by
  intro sched
  induction sched with
  | nil =>
    intro c1 c2 cur h
    rw [runTwo_nil]
    exact h
  | cons b rest ih =>
    intro c1 c2 cur h
    cases b
    · rw [runTwo_cons_false]
      exact ih c1 _ _ (h2 c1 c2 cur h)
    · rw [runTwo_cons_true]
      exact ih _ c2 _ (h1 c1 c2 cur h)

/-- Under an all-true schedule caller two never moves: caller one walks its
solo phases alone and caller two stays ready. -/
theorem runTwo_solo (opts : Options) (now : Nat) (T : String) (st : Store)
    (v : VerificationRecord) (sp : SessionPair)
    (hT : 1 ≤ T.length)
    (hfind : findVerificationValue st ("one-time-token:" ++ storeToken opts T) = some v)
    (hexp : ¬ v.expiresAt < now)
    (hsess : findSession st v.value = some sp) :
    ∀ (sched : List Bool), (∀ b ∈ sched, b = true) →
    ∀ (c1 : CallerPhase) (cur : Store), soloPhase st v sp c1 cur →
      (runTwo opts now T T sched c1 .ready cur).snd.fst = .ready ∧
      soloPhase st v sp (runTwo opts now T T sched c1 .ready cur).fst
        (runTwo opts now T T sched c1 .ready cur).snd.snd := by
  intro sched
  induction sched with
  | nil =>
    intro _ c1 cur h
    rw [runTwo_nil]
    exact ⟨rfl, h⟩
  | cons b rest ih =>
    intro hall c1 cur h
    have hb : b = true := hall b (List.mem_cons_self b rest)
    subst hb
    rw [runTwo_cons_true]
    exact ih (fun x hx => hall x (List.mem_cons_of_mem true hx)) _ _
      (solo_step opts now T st v sp hT hfind hexp hsess c1 cur h)

/-- Five steps finish any active caller successfully, leaving the burned
verification table in place. -/
theorem step5_active (opts : Options) (now : Nat) (T : String) (st : Store)
    (v : VerificationRecord) (sp : SessionPair)
    (hsess : findSession st v.value = some sp)
    (c : CallerPhase) (cur : Store) (h : activePhase st v sp c cur) :
    ∃ r cur2, step5 opts now T c cur = (.done r, cur2) ∧ isOkResult r = true ∧
      cur2.verifications = (deleteVerificationValue st v.id).verifications := by
  rcases h with ⟨hc, hcur⟩ | ⟨hc, hcur⟩ | ⟨r, hc, hr, hcur⟩
  · subst hc
    subst hcur
    by_cases hcs : opts.createSession
    · have hs : stepCaller opts now T (.willResolve v.value)
          (deleteVerificationValue st v.id)
          = (.willCreate sp, deleteVerificationValue st v.id) := by
        simp [stepCaller, findSession_deleteVerificationValue, hsess, hcs]
      exact ⟨.ok ⟨(createSession (deleteVerificationValue st v.id) sp.session.userId).fst,
          sp.user,
          some (createSession (deleteVerificationValue st v.id) sp.session.userId).fst.token⟩,
        setSessionCookie
          (createSession (deleteVerificationValue st v.id) sp.session.userId).snd
          ⟨(createSession (deleteVerificationValue st v.id) sp.session.userId).fst, sp.user⟩,
        by simp only [step5, hs, stepCaller_willCreate, stepCaller_done], rfl, rfl⟩
    · have hs : stepCaller opts now T (.willResolve v.value)
          (deleteVerificationValue st v.id)
          = (.done (.ok ⟨sp.session, sp.user, none⟩), deleteVerificationValue st v.id) := by
        simp [stepCaller, findSession_deleteVerificationValue, hsess, hcs]
      exact ⟨.ok ⟨sp.session, sp.user, none⟩, deleteVerificationValue st v.id,
        by simp only [step5, hs, stepCaller_done], rfl, rfl⟩
  · subst hc
    subst hcur
    exact ⟨.ok ⟨(createSession (deleteVerificationValue st v.id) sp.session.userId).fst,
          sp.user,
          some (createSession (deleteVerificationValue st v.id) sp.session.userId).fst.token⟩,
        setSessionCookie
          (createSession (deleteVerificationValue st v.id) sp.session.userId).snd
          ⟨(createSession (deleteVerificationValue st v.id) sp.session.userId).fst, sp.user⟩,
      by simp only [step5, stepCaller_willCreate, stepCaller_done], rfl, rfl⟩
  · subst hc
    refine ⟨r, cur, ?_, hr, hcur⟩
    simp only [step5, stepCaller_done]

/-- Five steps finish any blocked caller with the invalid-token error and an
unchanged store. -/
theorem step5_blocked (opts : Options) (now : Nat) (T : String) (st : Store)
    (v : VerificationRecord)
    (hT : 1 ≤ T.length)
    (hfind : findVerificationValue st ("one-time-token:" ++ storeToken opts T) = some v)
    (huniq : ∀ r1 ∈ st.verifications, ∀ r2 ∈ st.verifications,
      r1.identifier = "one-time-token:" ++ storeToken opts T →
      r2.identifier = "one-time-token:" ++ storeToken opts T → r1.id = r2.id)
    (c : CallerPhase) (cur : Store) (hb : blockedPhase c)
    (hcur : cur.verifications = (deleteVerificationValue st v.id).verifications) :
    step5 opts now T c cur = (.done (.error invalidTokenError), cur) := by
  rcases hb with hc | hc
  · subst hc
    have hn := find_burned_none opts T st v cur hfind huniq hcur
    have hs : stepCaller opts now T .ready cur
        = (.done (.error invalidTokenError), cur) := by
      simp only [stepCaller, if_neg (Nat.not_lt.mpr hT), hn]
    simp only [step5, hs, stepCaller_done]
  · subst hc
    simp only [step5, stepCaller_done]

/-- Five steps finish any solo caller successfully, leaving the burned
verification table. -/
theorem step5_solo (opts : Options) (now : Nat) (T : String) (st : Store)
    (v : VerificationRecord) (sp : SessionPair)
    (hT : 1 ≤ T.length)
    (hfind : findVerificationValue st ("one-time-token:" ++ storeToken opts T) = some v)
    (hexp : ¬ v.expiresAt < now)
    (hsess : findSession st v.value = some sp)
    (c : CallerPhase) (cur : Store) (h : soloPhase st v sp c cur) :
    ∃ r cur2, step5 opts now T c cur = (.done r, cur2) ∧ isOkResult r = true ∧
      cur2.verifications = (deleteVerificationValue st v.id).verifications := by
  rcases h with ⟨hc, hcur⟩ | ⟨hc, hcur⟩ | ha
  · rw [hc, hcur, step5_from_ready]
    exact ⟨(verifyOneTimeTokenSession opts now T st).fst,
      (verifyOneTimeTokenSession opts now T st).snd, rfl,
      verify_ok_of opts now T st v sp hT hfind hexp hsess,
      verify_snd_verifications opts now T st v hT hfind hexp⟩
  · rw [hc, hcur]
    have hs1 : stepCaller opts now T .ready st = (.willDelete v, st) := by
      simp only [stepCaller, if_neg (Nat.not_lt.mpr hT), hfind, if_neg hexp]
    by_cases hcs : opts.createSession
    · have hs : stepCaller opts now T (.willResolve v.value)
          (deleteVerificationValue st v.id)
          = (.willCreate sp, deleteVerificationValue st v.id) := by
        simp [stepCaller, findSession_deleteVerificationValue, hsess, hcs]
      exact ⟨.ok ⟨(createSession (deleteVerificationValue st v.id) sp.session.userId).fst,
          sp.user,
          some (createSession (deleteVerificationValue st v.id) sp.session.userId).fst.token⟩,
        setSessionCookie
          (createSession (deleteVerificationValue st v.id) sp.session.userId).snd
          ⟨(createSession (deleteVerificationValue st v.id) sp.session.userId).fst, sp.user⟩,
        by simp only [step5, stepCaller_willDelete, hs, stepCaller_willCreate,
          stepCaller_done], rfl, rfl⟩
    · have hs : stepCaller opts now T (.willResolve v.value)
          (deleteVerificationValue st v.id)
          = (.done (.ok ⟨sp.session, sp.user, none⟩), deleteVerificationValue st v.id) := by
        simp [stepCaller, findSession_deleteVerificationValue, hsess, hcs]
      exact ⟨.ok ⟨sp.session, sp.user, none⟩, deleteVerificationValue st v.id,
        by simp only [step5, stepCaller_willDelete, hs, stepCaller_done], rfl, rfl⟩
  · exact step5_active opts now T st v sp hsess c cur ha

/-! ### C9: concurrent redemption -/


/-- Counterexample to C9 as stated: under the interleaving in which both
callers perform their record lookup before either performs its delete
(schedule one-two-one-two), the two concurrent verify calls of the same token
both succeed, even though every store operation — each delete included — is
atomic and serialized.  The handler's find-then-delete is not one atomic
operation. -/
theorem concurrent_redemption_counterexample :
    isOkResult (runBoth sampleOpts 500 "T" "T" [true, false, true, false]
      sampleStore).fst = true ∧
    isOkResult (runBoth sampleOpts 500 "T" "T" [true, false, true, false]
      sampleStore).snd.fst = true := by
  decide

/-- Claim C9 (amended): two concurrent verify calls of a token stored under a
unique identifier yield exactly one success and one invalid-token failure
under every interleaving in which one call performs both its find and its
delete before the other call performs its find: the schedule starts with two
steps of one caller (exactly that caller's find and delete), or steps only
one caller throughout so that the other runs entirely after it finishes.
Interleavings in which both finds precede both deletes instead yield two
successes. -/
theorem concurrent_redemption_serialized (opts : Options) (now : Nat) (T : String)
    (st : Store) (v : VerificationRecord) (sp : SessionPair)
    (hT : 1 ≤ T.length)
    (hfind : findVerificationValue st ("one-time-token:" ++ storeToken opts T) = some v)
    (hexp : ¬ v.expiresAt < now)
    (hsess : findSession st v.value = some sp)
    (huniq : ∀ r1 ∈ st.verifications, ∀ r2 ∈ st.verifications,
      r1.identifier = "one-time-token:" ++ storeToken opts T →
      r2.identifier = "one-time-token:" ++ storeToken opts T → r1.id = r2.id)
    (sched : List Bool)
    (hclass : (∃ rest, sched = true :: true :: rest) ∨ (∀ b ∈ sched, b = true) ∨
      (∃ rest, sched = false :: false :: rest)) :
    (isOkResult (runBoth opts now T T sched st).fst = true ∧
     (runBoth opts now T T sched st).snd.fst = .error invalidTokenError) ∨
    ((runBoth opts now T T sched st).fst = .error invalidTokenError ∧
     isOkResult (runBoth opts now T T sched st).snd.fst = true) := by
  have hs1 : stepCaller opts now T .ready st = (.willDelete v, st) := by
    simp only [stepCaller, if_neg (Nat.not_lt.mpr hT), hfind, if_neg hexp]
  rcases hclass with ⟨rest, hsched⟩ | hall | ⟨rest, hsched⟩
  · subst hsched
    have h2 : runTwo opts now T T (true :: true :: rest) .ready .ready st
        = runTwo opts now T T rest (.willResolve v.value) .ready
            (deleteVerificationValue st v.id) := by
      rw [runTwo_cons_true]
      simp only [hs1]
      rw [runTwo_cons_true]
      simp only [stepCaller_willDelete]
    have hinv := runTwo_inv opts now T
      (fun c1 c2 cur => activePhase st v sp c1 cur ∧ blockedPhase c2)
      (fun c1 c2 cur h => ⟨active_step opts now T st v sp hsess c1 cur h.1, h.2⟩)
      (fun c1 c2 cur h => by
        have hb := blocked_step opts now T st v hT hfind huniq c2 cur h.2
          (active_verifications st v sp c1 cur h.1)
        have hsnd : (stepCaller opts now T c2 cur).snd = cur := congrArg Prod.snd hb.1
        exact ⟨hsnd.symm ▸ h.1, hb.2⟩)
      rest (.willResolve v.value) .ready (deleteVerificationValue st v.id)
      ⟨Or.inl ⟨rfl, rfl⟩, Or.inl rfl⟩
    obtain ⟨hact, hblk⟩ := hinv
    obtain ⟨r, cur2, hf1, hr, hcur2⟩ := step5_active opts now T st v sp hsess _ _ hact
    have hf2 := step5_blocked opts now T st v hT hfind huniq _ cur2 hblk hcur2
    left
    constructor
    · simp only [runBoth, h2, hf1, hf2, resultOf]
      exact hr
    · simp only [runBoth, h2, hf1, hf2, resultOf]
  · have hrun := runTwo_solo opts now T st v sp hT hfind hexp hsess sched hall
      .ready st (Or.inl ⟨rfl, rfl⟩)
    obtain ⟨r, cur2, hf1, hr, hcur2⟩ :=
      step5_solo opts now T st v sp hT hfind hexp hsess _ _ hrun.2
    have hf2 := step5_blocked opts now T st v hT hfind huniq .ready cur2
      (Or.inl rfl) hcur2
    left
    constructor
    · simp only [runBoth, hf1, hrun.1, hf2, resultOf]
      exact hr
    · simp only [runBoth, hf1, hrun.1, hf2, resultOf]
  · subst hsched
    have h2 : runTwo opts now T T (false :: false :: rest) .ready .ready st
        = runTwo opts now T T rest .ready (.willResolve v.value)
            (deleteVerificationValue st v.id) := by
      rw [runTwo_cons_false]
      simp only [hs1]
      rw [runTwo_cons_false]
      simp only [stepCaller_willDelete]
    have hinv := runTwo_inv opts now T
      (fun c1 c2 cur => blockedPhase c1 ∧ activePhase st v sp c2 cur)
      (fun c1 c2 cur h => by
        have hb := blocked_step opts now T st v hT hfind huniq c1 cur h.1
          (active_verifications st v sp c2 cur h.2)
        have hsnd : (stepCaller opts now T c1 cur).snd = cur := congrArg Prod.snd hb.1
        exact ⟨hb.2, hsnd.symm ▸ h.2⟩)
      (fun c1 c2 cur h => ⟨h.1, active_step opts now T st v sp hsess c2 cur h.2⟩)
      rest .ready (.willResolve v.value) (deleteVerificationValue st v.id)
      ⟨Or.inl rfl, Or.inl ⟨rfl, rfl⟩⟩
    obtain ⟨hblk, hact⟩ := hinv
    have hf1 := step5_blocked opts now T st v hT hfind huniq _ _ hblk
      (active_verifications st v sp _ _ hact)
    obtain ⟨r, cur2, hf2, hr, hcur2⟩ := step5_active opts now T st v sp hsess _ _ hact
    right
    constructor
    · simp only [runBoth, h2, hf1, hf2, resultOf]
    · simp only [runBoth, h2, hf1, hf2, resultOf]
      exact hr

/-- Witness for C9 (amended) at the concrete sample store, under the schedule
that lets caller one find and delete before caller two runs. -/
theorem concurrent_redemption_serialized_witness :
    (isOkResult (runBoth sampleOpts 500 "T" "T" [true, true] sampleStore).fst = true ∧
     (runBoth sampleOpts 500 "T" "T" [true, true] sampleStore).snd.fst
       = .error invalidTokenError) ∨
    ((runBoth sampleOpts 500 "T" "T" [true, true] sampleStore).fst
       = .error invalidTokenError ∧
     isOkResult (runBoth sampleOpts 500 "T" "T" [true, true] sampleStore).snd.fst
       = true) := by
  exact concurrent_redemption_serialized sampleOpts 500 "T" sampleStore
    ⟨0, "one-time-token:T", "stok", 1000⟩ samplePair (by decide) (by decide)
    (by decide) (by decide) (by decide) [true, true] (Or.inl ⟨[], rfl⟩)

/-! ### C10: an empty generated token is unredeemable -/

/-- Claim C10: if the configured generateToken function returns the empty
string, generate still succeeds, returning the empty token and persisting a
verification record under the transformed empty token, but that record can
never be redeemed: verify of the empty token fails the minimum-length-one
body validation, for every store and time, with the store unchanged — so no
transform result is used and no lookup or deletion happens. -/
theorem empty_token_unredeemable (opts : Options) (now now2 : Nat) (hasRequest : Bool)
    (sess : SessionPair) (rand : String) (st st2 : Store)
    (hgen : opts.generateToken = some (fun _ => ""))
    (hnd : (opts.disableClientRequest && hasRequest) = false) :
    generateOneTimeTokenSession opts now hasRequest sess rand st
      = (.ok ⟨""⟩, createVerificationValue st sess.session.token
          ("one-time-token:" ++ storeToken opts "") (now + opts.expiresIn * 60 * 1000)) ∧
    verifyOneTimeTokenSession opts now2 "" st2 = (.error tokenRequiredError, st2) := by
  constructor
  · simp only [generateOneTimeTokenSession, hnd, Bool.false_eq_true, if_false, hgen]
  · rfl

/-- Witness for C10: with the hashed transform and the empty-token generator,
generate persists a record while verify of "" fails validation. -/
theorem empty_token_unredeemable_witness :
    generateOneTimeTokenSession emptyTokenHashedOpts 3 false samplePair "r" sampleStore
      = (.ok ⟨""⟩, createVerificationValue sampleStore samplePair.session.token
          ("one-time-token:" ++ storeToken emptyTokenHashedOpts "")
          (3 + emptyTokenHashedOpts.expiresIn * 60 * 1000)) ∧
    verifyOneTimeTokenSession emptyTokenHashedOpts 9 "" sampleStore
      = (.error tokenRequiredError, sampleStore) :=
  empty_token_unredeemable emptyTokenHashedOpts 3 9 false samplePair "r"
    sampleStore sampleStore rfl rfl

end OneTimeTokenSession
